import Mathlib

/-!
Shallow embedding of the WordPress news-site data layer
(`lib/wordpress` utility module together with the page-level parsing of
the `page` query parameter).  Pure helper functions are translated to
Lean functions over `String` / `List Char`; the `fetch`-based accessors
are modelled as functions of the (already received) upstream HTTP
response, with `none` standing for a thrown transport error and a `none`
body standing for a JSON-decoding error.  JavaScript numbers that can be
`NaN` (results of `parseInt`) are modelled by the type `JsNum`.
-/

namespace WP

/-- The whitespace characters matched by the JavaScript regexp class
`\s` (ASCII whitespace plus the Unicode space separators, line/paragraph
separators, NBSP and BOM). -/
def jsWsChars : List Char :=
  [' ', '\t', '\n', '\r', '\x0b', '\x0c',
   ' ', ' ', ' ', ' ', ' ', ' ', ' ',
   ' ', ' ', ' ', ' ', ' ', ' ',
   ' ', ' ', ' ', ' ', '　', '﻿']

/-- Test that `c` is a JavaScript `\s` whitespace character. -/
def isJsWs (c : Char) : Bool := jsWsChars.contains c

/-- Scan for the closing `>` of a tag: consume characters up to and
including the first `>`, returning the remainder, or `none` when no `>`
occurs (in which case the regexp `<[^>]*>` has no match starting here). -/
def dropTag : List Char → Option (List Char)
  | [] => none
  | c :: rest => if c = '>' then some rest else dropTag rest

/-- Translation of `content.replace(/<[^>]*>/g, '')` on the character list, with a fuel
parameter for structural recursion: each `<` that has a later `>` is
removed together with everything up to that first `>`; a `<` with no
later `>` is kept literally.  `dropTag` shortens the list, so fuel equal
to the list length is always sufficient. -/
def stripHtmlFuel : Nat → List Char → List Char
  | _, [] => []
  | 0, l => l
  | fuel + 1, c :: rest =>
    if c = '<' then
      match dropTag rest with
      | some rest2 => stripHtmlFuel fuel rest2
      | none => c :: stripHtmlFuel fuel rest
    else c :: stripHtmlFuel fuel rest

/-- Translation of `l.replace(/<[^>]*>/g, '')` on the character list. -/
def stripHtmlL (l : List Char) : List Char := stripHtmlFuel l.length l

/-- Source function `stripHtml(html)`: `html.replace(/<[^>]*>/g, '')`. -/
def stripHtml (html : String) : String := ⟨stripHtmlL html.data⟩

/-- Translation of `String.prototype.split(/\s+/)`: scan with the current field
accumulated in `acc` (reversed) and a flag telling whether the scanner
is inside a whitespace run.  A whitespace run ends the current field and
the next non-whitespace character starts a new one; the field in
progress is emitted at the end of the string, so leading and trailing
runs produce empty fields and the result always has at least one
field. -/
def splitWsGo : List Char → Bool → List Char → List (List Char)
  | [], _, acc => [acc.reverse]
  | c :: rest, skipping, acc =>
    if isJsWs c then
      if skipping then splitWsGo rest true []
      else acc.reverse :: splitWsGo rest true []
    else splitWsGo rest false (c :: acc)

/-- Translation of `text.split(/\s+/)` on a character list. -/
def jsSplitWs (l : List Char) : List (List Char) := splitWsGo l false []

/-- Accumulate the numeric value of the leading digit run
(`parseInt` keeps parsing while it sees decimal digits). -/
def takeDigitsVal : List Char → Nat → Nat
  | c :: rest, acc =>
    if c.isDigit then takeDigitsVal rest (acc * 10 + (c.toNat - 48)) else acc
  | [], acc => acc

/-- Parse an unsigned decimal prefix; `none` when the first character is
not a digit (JavaScript `parseInt` then returns `NaN`). -/
def parseUnsigned (l : List Char) : Option Nat :=
  match l with
  | c :: _ => if c.isDigit then some (takeDigitsVal l 0) else none
  | [] => none

/-- JavaScript `parseInt(s)` (base 10): skip leading whitespace, accept
an optional sign, then read a decimal digit run; `none` models `NaN`. -/
def jsParseInt (s : String) : Option Int :=
  match s.data.dropWhile isJsWs with
  | '-' :: rest => (parseUnsigned rest).map (fun n => -(n : Int))
  | '+' :: rest => (parseUnsigned rest).map (fun n => (n : Int))
  | l => (parseUnsigned l).map (fun n => (n : Int))

/-- A JavaScript number that is either an integer or `NaN`
(the only values arising here: `parseInt` results and literals). -/
inductive JsNum where
  | nan : JsNum
  | int : Int → JsNum
deriving DecidableEq

/-- Result of `parseInt` as a JavaScript number (`NaN` when no digits parse). -/
def jsParseIntNum (s : String) : JsNum :=
  match jsParseInt s with
  | some n => JsNum.int n
  | none => JsNum.nan

/-- Stringification `String(n)` for the numbers used in query parameters. -/
def JsNum.toJsString : JsNum → String
  | .nan => "NaN"
  | .int n => toString n

/-- JavaScript `x || dflt` for a nullable string `x`: `null`,
`undefined` and the empty string are falsy. -/
def jsOr (x : Option String) (dflt : String) : String :=
  match x with
  | none => dflt
  | some s => if s = "" then dflt else s

/-- Translation of `String.prototype.trim()`: remove whitespace from both ends. -/
def jsTrimL (l : List Char) : List Char :=
  ((l.dropWhile isJsWs).reverse.dropWhile isJsWs).reverse

/-- Translation of `s.trim()` at the string level. -/
def jsTrim (s : String) : String := ⟨jsTrimL s.data⟩

/-- Source function `calculateReadingTime(content)`:
strip tags, split on `/\s+/`, `Math.ceil(wordCount / 200)`. -/
def calculateReadingTime (content : String) : Nat :=
  let text := stripHtml content
  let wordCount := (jsSplitWs text.data).length
  (wordCount + 199) / 200

/-- Source function `createExcerpt(content, maxLength = 150)`:
strip tags; if the text fits, return it; otherwise
`text.substring(0, maxLength).trim() + '...'`. -/
def createExcerpt (content : String) (maxLength : Nat) : String :=
  let text := stripHtml content
  if text.length ≤ maxLength then text
  else jsTrim ⟨text.data.take maxLength⟩ ++ "..."

/-- Repetition in the style of `"word ".repeat(n)`. -/
def repeatStr : Nat → String → String
  | 0, _ => ""
  | n + 1, s => s ++ repeatStr n s

/-- Keep only the trailing whitespace trimmed (what the spec sentence
for `createExcerpt` literally describes; JavaScript `trim()` also
removes leading whitespace, so this differs from the source). -/
def trimEndL (l : List Char) : List Char :=
  (l.reverse.dropWhile isJsWs).reverse

/-- The excerpt function the claim literally describes: truncate, trim
only TRAILING whitespace, append the ellipsis. -/
def createExcerptClaimed (content : String) (maxLength : Nat) : String :=
  let text := stripHtml content
  if text.length ≤ maxLength then text
  else ⟨trimEndL (text.data.take maxLength)⟩ ++ "..."

/-- The amended excerpt description: truncate, remove leading
whitespace, then remove trailing whitespace, append the ellipsis. -/
def createExcerptAmendedSpec (content : String) (maxLength : Nat) : String :=
  let text := stripHtml content
  if text.length ≤ maxLength then text
  else ⟨trimEndL ((text.data.take maxLength).dropWhile isJsWs)⟩ ++ "..."

/-!  ## The data model and the fetch-based accessors  -/

/-- An embedded author record (`_embedded.author[k]`); only the `name`
field is read by the verified accessors, `none` models an absent
field. -/
structure Author where
  name : Option String
deriving DecidableEq

/-- The `_embedded` payload of a post; only the `author` array is read
by the verified accessors, `none` models an absent field. -/
structure Embedded where
  author : Option (List Author)
deriving DecidableEq

/-- A WordPress post; only the `_embedded` field is inspected by the
functions under verification, the rest of the record is opaque
pass-through data. -/
structure Post where
  embedded : Option Embedded
deriving DecidableEq

/-- Source function `getAuthorName(post)`:
`post._embedded?.author?.[0]?.name || 'Unknown Author'` — any step of
the optional chain yielding `undefined`, and a falsy (empty) name,
fall into the fallback. -/
def getAuthorName (post : Post) : String :=
  match post.embedded with
  | some e =>
    match e.author with
    | some (a :: _) =>
      match a.name with
      | some n => if n = "" then "Unknown Author" else n
      | none => "Unknown Author"
    | _ => "Unknown Author"
  | none => "Unknown Author"

/-- An upstream HTTP response as the accessors observe it: the success
flag (`response.ok`), the two WordPress pagination headers
(`none` = header absent), and the JSON body
(`none` = `response.json()` threw a decoding error). -/
structure WPResponse where
  ok : Bool
  totalPagesHeader : Option String
  totalHeader : Option String
  body : Option (List Post)
deriving DecidableEq

/-- The value returned by `getPosts`: the decoded posts plus the
pagination metadata (`totalPages` / `totalPosts` are `parseInt` results,
hence possibly `NaN`; `currentPage` is the caller-supplied page
number). -/
structure PostsResult where
  posts : List Post
  totalPages : JsNum
  totalPosts : JsNum
  currentPage : JsNum
deriving DecidableEq

/-- The catch-branch result of `getPosts`:
`{ posts: [], totalPages: 1, totalPosts: 0, currentPage: 1 }`. -/
def emptyPostsResult : PostsResult :=
  { posts := [], totalPages := .int 1, totalPosts := .int 0,
    currentPage := .int 1 }

/-- The parameters object of `getPosts`; `none` fields model absent
(`undefined`) properties, for which the destructuring defaults
(`page = 1`, `perPage = 9`, `categories = ''`, `search = ''`) fire. -/
structure GetPostsParams where
  page : Option JsNum
  perPage : Option JsNum
  categories : String
  search : String
deriving DecidableEq

/-- The query parameters `getPosts` appends to the request URL, in
`URLSearchParams` insertion order: `page`, `per_page`, `_embed`, then
`categories` and `search` only when truthy (non-empty). -/
def buildPostsQueryParams (params : GetPostsParams) : List (String × String) :=
  let page := params.page.getD (.int 1)
  let perPage := params.perPage.getD (.int 9)
  [("page", page.toJsString), ("per_page", perPage.toJsString),
   ("_embed", "true")]
    ++ (if params.categories = "" then [] else [("categories", params.categories)])
    ++ (if params.search = "" then [] else [("search", params.search)])

/-- Source function `getPosts(params)`, as a function of the upstream
response (`none` = the `fetch` call itself threw).  A non-ok status and
a body decoding error both jump to the catch branch; on success the
pagination headers go through `x || dflt` and `parseInt`, and
`currentPage` is the request's page number. -/
def getPosts (params : GetPostsParams) (response : Option WPResponse) :
    PostsResult :=
  let page := params.page.getD (.int 1)
  match response with
  | none => emptyPostsResult
  | some resp =>
    if resp.ok then
      match resp.body with
      | some posts =>
        { posts := posts
          totalPages := jsParseIntNum (jsOr resp.totalPagesHeader "1")
          totalPosts := jsParseIntNum (jsOr resp.totalHeader "0")
          currentPage := page }
      | none => emptyPostsResult
    else emptyPostsResult

/-- Source function `getPostBySlug(slug)`, as a function of the
upstream response: `posts[0] || null` on success, `null` when the
status is non-ok, the body fails to decode, or the fetch threw. -/
def getPostBySlug (slug : String) (response : Option WPResponse) :
    Option Post :=
  match slug, response with
  | _, none => none
  | _, some resp =>
    if resp.ok then
      match resp.body with
      | some posts => posts.head?
      | none => none
    else none

/-- The page-number parsing shared by `HomePage` and `CategoryPage`:
`parseInt(searchParams?.page || '1')` — an absent or empty string falls
back to `'1'`, everything else goes through `parseInt`. -/
def parsePageParam (input : Option String) : JsNum :=
  jsParseIntNum (jsOr input "1")

/-- Test that `v` is an integer that is at least 1 (`NaN` is not). -/
def JsNum.geOne : JsNum → Bool
  | .nan => false
  | .int n => decide (1 ≤ n)

/-- The `PageResult` invariant claimed by the specification:
`currentPage >= 1`, `totalPages >= 1`, and at most `perPage` items. -/
def pageResultOk (perPage : Nat) (r : PostsResult) : Bool :=
  r.currentPage.geOne && r.totalPages.geOne
    && decide (r.posts.length ≤ perPage)

/-!  ## Helper lemmas about the string scanners  -/

theorem dropTag_length {l r : List Char} (h : dropTag l = some r) :
    r.length < l.length := by
  induction l with
  | nil => simp [dropTag] at h
  | cons c rest ih =>
    by_cases hc : c = '>'
    · simp [dropTag, hc] at h
      simp [← h, List.length_cons, Nat.lt_succ_self]
    · simp [dropTag, hc] at h
      exact Nat.lt_trans (ih h) (Nat.lt_succ_self _)

/-- The fuel argument of `stripHtmlFuel` is irrelevant once it covers
the list length. -/
theorem stripHtmlFuel_congr :
    ∀ (fuel fuel' : Nat) (l : List Char), l.length ≤ fuel →
      l.length ≤ fuel' → stripHtmlFuel fuel l = stripHtmlFuel fuel' l := by
  intro fuel
  induction fuel with
  | zero =>
    intro fuel' l h _
    have hl : l = [] := List.length_eq_zero.mp (Nat.le_zero.mp h)
    subst hl
    cases fuel' <;> simp [stripHtmlFuel]
  | succ f ih =>
    intro fuel' l h h'
    match l with
    | [] => cases fuel' <;> simp [stripHtmlFuel]
    | c :: rest =>
      match fuel' with
      | 0 => simp at h'
      | f' + 1 =>
        simp only [List.length_cons, Nat.succ_le_succ_iff] at h h'
        by_cases hc : c = '<'
        · subst hc
          cases hdt : dropTag rest with
          | some rest2 =>
            have h2 : rest2.length < rest.length := dropTag_length hdt
            simp only [stripHtmlFuel, hdt, if_pos rfl]
            exact ih f' rest2 (by omega) (by omega)
          | none =>
            simp only [stripHtmlFuel, hdt, if_pos rfl]
            exact congrArg _ (ih f' rest h h')
        · simp only [stripHtmlFuel, if_neg hc]
          exact congrArg _ (ih f' rest h h')

theorem stripHtmlL_nil : stripHtmlL [] = [] := rfl

theorem stripHtmlL_cons_of_ne (c : Char) (rest : List Char)
    (h : c ≠ '<') : stripHtmlL (c :: rest) = c :: stripHtmlL rest := by
  simp only [stripHtmlL, List.length_cons, stripHtmlFuel, if_neg h]

theorem stripHtmlL_tag (rest rest2 : List Char)
    (h : dropTag rest = some rest2) :
    stripHtmlL ('<' :: rest) = stripHtmlL rest2 := by
  simp only [stripHtmlL, List.length_cons, stripHtmlFuel, h, if_pos rfl]
  exact stripHtmlFuel_congr _ _ _ (Nat.le_of_lt (dropTag_length h)) le_rfl

/-- A prefix without `<` passes through `stripHtmlL` unchanged. -/
theorem stripHtmlL_append (l t : List Char) (h : ∀ c ∈ l, c ≠ '<') :
    stripHtmlL (l ++ t) = l ++ stripHtmlL t := by
  induction l with
  | nil => simp
  | cons c rest ih =>
    have hc : c ≠ '<' := h c (List.mem_cons_self _ _)
    rw [List.cons_append, stripHtmlL_cons_of_ne c _ hc,
      ih (fun d hd => h d (List.mem_cons_of_mem _ hd)), List.cons_append]

/-- Every split, whatever the scanner state, has at least one field. -/
theorem splitWsGo_length_pos :
    ∀ (l : List Char) (b : Bool) (acc : List Char),
      1 ≤ (splitWsGo l b acc).length := by
  intro l
  induction l with
  | nil => intro b acc; simp [splitWsGo]
  | cons c rest ih =>
    intro b acc
    by_cases hc : isJsWs c = true
    · cases b with
      | true => simpa [splitWsGo, hc] using ih true []
      | false => simp [splitWsGo, hc]
    · simp only [Bool.not_eq_true] at hc
      simpa [splitWsGo, hc] using ih false (c :: acc)

theorem repeatStr_data (n : Nat) (s : String) :
    (repeatStr (n + 1) s).data = s.data ++ (repeatStr n s).data := by
  simp [repeatStr, String.data_append]

/-- Every character of `"word ".repeat(n)` is one of `w o r d ␣`. -/
theorem repeatStr_word_chars (n : Nat) :
    ∀ c ∈ (repeatStr n "word ").data, c ∈ "word ".data := by
  induction n with
  | zero => intro c hc; simp [repeatStr] at hc
  | succ m ih =>
    intro c hc
    rw [repeatStr_data] at hc
    rcases List.mem_append.mp hc with h | h
    · exact h
    · exact ih c h

/-- Counting the fields of `"word ".repeat(n)`: one word field per
repetition, plus the empty trailing field after the final space (there
is always a final space when `n > 0`, and the empty string splits into
one empty field), in every scanner start state. -/
theorem splitWsGo_repeat_word (n : Nat) :
    ∀ b : Bool,
      (splitWsGo (repeatStr n "word ").data b []).length = n + 1 := by
  induction n with
  | zero => intro b; simp [repeatStr, splitWsGo]
  | succ m ih =>
    intro b
    rw [repeatStr_data]
    have hw : isJsWs 'w' = false := by decide
    have ho : isJsWs 'o' = false := by decide
    have hr : isJsWs 'r' = false := by decide
    have hd : isJsWs 'd' = false := by decide
    have hs : isJsWs ' ' = true := by decide
    show (splitWsGo ('w' :: 'o' :: 'r' :: 'd' :: ' ' ::
      (repeatStr m "word ").data) b []).length = m + 2
    cases b <;>
      simp only [splitWsGo, hw, ho, hr, hd, hs, Bool.false_eq_true,
        if_false, if_true, List.reverse_cons, List.reverse_nil,
        List.nil_append, List.length_cons] <;>
      rw [ih true]

/-- Stripping the `<p>`/`</p>` wrapper around repeated `"word "`
leaves exactly the repeated words. -/
theorem stripHtml_p_wrap (n : Nat) :
    (stripHtml ("<p>" ++ repeatStr n "word " ++ "</p>")).data
      = (repeatStr n "word ").data := by
  have hword : ∀ c ∈ "word ".data, c ≠ '<' := by decide
  have hnolt : ∀ c ∈ (repeatStr n "word ").data, c ≠ '<' :=
    fun c hc => hword c (repeatStr_word_chars n c hc)
  have hdata : ("<p>" ++ repeatStr n "word " ++ "</p>").data
      = '<' :: 'p' :: '>' :: ((repeatStr n "word ").data ++ "</p>".data) := by
    simp [String.data_append]
  have htag : dropTag ('p' :: '>' :: ((repeatStr n "word ").data ++ "</p>".data))
      = some ((repeatStr n "word ").data ++ "</p>".data) := by
    simp [dropTag]
  show stripHtmlL ("<p>" ++ repeatStr n "word " ++ "</p>").data = _
  rw [hdata, stripHtmlL_tag _ _ htag, stripHtmlL_append _ _ hnolt]
  have hclose : stripHtmlL "</p>".data = [] := by decide
  rw [hclose, List.append_nil]

/-- The reading time of 400 `"word "` repetitions wrapped in a
paragraph tag: the split yields 401 fields (400 words plus the empty
trailing field), and `ceil(401 / 200) = 3`. -/
theorem readingTime_word400 :
    calculateReadingTime ("<p>" ++ repeatStr 400 "word " ++ "</p>") = 3 := by
  simp only [calculateReadingTime, jsSplitWs]
  rw [stripHtml_p_wrap 400, splitWsGo_repeat_word 400 false]

/-!  ## The claims  -/

/-- C2 (counterexample): the claimed values are wrong on the source —
empty content yields reading time 1 (not `ceil(0/200) = 0`), because
splitting the empty string gives one (empty) field; and the 400-word
example yields 3 (not 2), because the split of `"word ".repeat(400)`
has 401 fields (the trailing space contributes an empty field). -/
theorem calculateReadingTime_claim_counterexample :
    calculateReadingTime "" ≠ 0 ∧
      calculateReadingTime ("<p>" ++ repeatStr 400 "word " ++ "</p>") ≠ 2 := by
  refine ⟨by decide, ?_⟩
  rw [readingTime_word400]
  decide

/-- C2 (amended): `calculateReadingTime` strips HTML tags, splits the
remaining text on whitespace, and returns the ceiling of
`fieldCount / 200`, where the field count includes the empty fields
produced by leading/trailing whitespace; in particular
`"<p>" + "word ".repeat(400) + "</p>"` gives 3 (401 fields) and the
empty string gives 1 (one empty field). -/
theorem calculateReadingTime_spec_amended :
    (∀ content : String,
        (jsSplitWs (stripHtml content).data).length
            ≤ 200 * calculateReadingTime content ∧
          200 * calculateReadingTime content
            < (jsSplitWs (stripHtml content).data).length + 200) ∧
      calculateReadingTime ("<p>" ++ repeatStr 400 "word " ++ "</p>") = 3 ∧
      calculateReadingTime "" = 1 := by
  refine ⟨fun content => ?_, readingTime_word400, by decide⟩
  simp only [calculateReadingTime]
  omega

/-- C9: the reading time is never 0: splitting any string on whitespace
yields at least one field, so the ceiling of `fieldCount / 200` is at
least 1. -/
theorem calculateReadingTime_pos (content : String) :
    1 ≤ calculateReadingTime content := by
  have h := splitWsGo_length_pos (stripHtml content).data false []
  simp only [calculateReadingTime, jsSplitWs]
  omega

/-- C1: whatever the requested page, page size, category filter and
search string, a non-success HTTP status makes `getPosts` return
exactly the empty result
`{posts: [], totalPages: 1, totalPosts: 0, currentPage: 1}` (the value
of the catch branch — no exception reaches the caller). -/
theorem getPosts_nonSuccess_empty (params : GetPostsParams)
    (resp : WPResponse) (h : resp.ok = false) :
    getPosts params (some resp) = emptyPostsResult := by
  simp [getPosts, h]

/-- Witness for C1 at a concrete failing response. -/
theorem getPosts_nonSuccess_empty_witness :
    getPosts ⟨some (.int 2), some (.int 9), "7", "news"⟩
        (some ⟨false, some "5", some "40", some []⟩) = emptyPostsResult :=
  getPosts_nonSuccess_empty _ _ rfl

/-- C3: on a successful response with a decodable body, `currentPage`
is the requested page number, unconditionally — the response headers
play no role, so `currentPage > totalPages` is a permitted output. -/
theorem getPosts_currentPage_unclamped (params : GetPostsParams)
    (resp : WPResponse) (posts : List Post) (p : JsNum)
    (hp : params.page = some p) (hok : resp.ok = true)
    (hb : resp.body = some posts) :
    (getPosts params (some resp)).currentPage = p := by
  simp [getPosts, hp, hok, hb]

/-- Witness for C3: page 99 is requested while the response reports
only 2 total pages; the result still carries `currentPage = 99`. -/
theorem getPosts_currentPage_unclamped_witness :
    (getPosts ⟨some (.int 99), some (.int 9), "", ""⟩
          (some ⟨true, some "2", some "13", some []⟩)).currentPage
        = JsNum.int 99 ∧
      (getPosts ⟨some (.int 99), some (.int 9), "", ""⟩
          (some ⟨true, some "2", some "13", some []⟩)).totalPages
        = JsNum.int 2 :=
  ⟨getPosts_currentPage_unclamped _ _ [] _ rfl rfl rfl, by decide⟩

/-- C4 (counterexample): a present but non-numeric pagination header
does NOT fall back to the claimed defaults — `parseInt('abc')` is
`NaN`, so `totalPages` is `NaN` rather than 1 and `totalPosts` is
`NaN` rather than 0. -/
theorem getPosts_header_default_counterexample :
    (getPosts ⟨none, none, "", ""⟩
          (some ⟨true, some "abc", some "xyz", some []⟩)).totalPages
        ≠ JsNum.int 1 ∧
      (getPosts ⟨none, none, "", ""⟩
          (some ⟨true, some "abc", some "xyz", some []⟩)).totalPosts
        ≠ JsNum.int 0 := by
  decide

/-- C4 (amended): on success, `totalPosts` comes from the `X-WP-Total`
header and `totalPages` from `X-WP-TotalPages`; the defaults 0 and 1
apply exactly when the header is absent or the empty string, while a
present non-empty header goes through `parseInt`: its integer value for
numeric strings, `NaN` (not the default) for non-numeric ones. -/
theorem getPosts_header_defaults_amended (params : GetPostsParams)
    (resp : WPResponse) (posts : List Post) (hok : resp.ok = true)
    (hb : resp.body = some posts) :
    ((resp.totalPagesHeader = none ∨ resp.totalPagesHeader = some "") →
        (getPosts params (some resp)).totalPages = JsNum.int 1) ∧
      ((resp.totalHeader = none ∨ resp.totalHeader = some "") →
        (getPosts params (some resp)).totalPosts = JsNum.int 0) ∧
      (∀ s : String, resp.totalPagesHeader = some s → s ≠ "" →
        (getPosts params (some resp)).totalPages = jsParseIntNum s) ∧
      (∀ s : String, resp.totalHeader = some s → s ≠ "" →
        (getPosts params (some resp)).totalPosts = jsParseIntNum s) := by
  have h1 : jsParseIntNum "1" = JsNum.int 1 := by decide
  have h0 : jsParseIntNum "0" = JsNum.int 0 := by decide
  refine ⟨fun hh => ?_, fun hh => ?_, fun s hh hs => ?_, fun s hh hs => ?_⟩
  · rcases hh with hh | hh <;> simp [getPosts, hok, hb, hh, jsOr, h1]
  · rcases hh with hh | hh <;> simp [getPosts, hok, hb, hh, jsOr, h0]
  · simp [getPosts, hok, hb, hh, jsOr, hs]
  · simp [getPosts, hok, hb, hh, jsOr, hs]

/-- Witness for C4: an absent `X-WP-TotalPages` header defaults to 1,
an empty `X-WP-Total` header defaults to 0, and a numeric header is
extracted. -/
theorem getPosts_header_defaults_amended_witness :
    (getPosts ⟨none, none, "", ""⟩
          (some ⟨true, none, some "", some []⟩)).totalPages
        = JsNum.int 1 ∧
      (getPosts ⟨none, none, "", ""⟩
          (some ⟨true, none, some "", some []⟩)).totalPosts
        = JsNum.int 0 ∧
      (getPosts ⟨none, none, "", ""⟩
          (some ⟨true, some "7", some "61", some []⟩)).totalPages
        = jsParseIntNum "7" :=
  ⟨(getPosts_header_defaults_amended _ _ [] rfl rfl).1 (Or.inl rfl),
    (getPosts_header_defaults_amended _ _ [] rfl rfl).2.1 (Or.inr rfl),
    (getPosts_header_defaults_amended _ _ [] rfl rfl).2.2.1 "7" rfl
      (by decide)⟩

/-- C5 (counterexample): a present but non-numeric `page` string does
NOT default to 1 — `parseInt('abc')` is `NaN`, and that `NaN` is what
the page pipeline produces. -/
theorem parsePageParam_default_counterexample :
    parsePageParam (some "abc") ≠ JsNum.int 1 := by decide

/-- C5 (amended): the requested page defaults to 1 exactly when the
external string is absent or empty (the `|| '1'` fallback); any other
string goes through `parseInt`, so a non-numeric one yields `NaN`, not
the default.  The query parameters always contain `page` (the resolved
page number) and `per_page` (the resolved page size, 9 when the call
site supplies 9 or omits it), and contain `categories` / `search`
exactly when those filters are non-empty. -/
theorem parsePageParam_amended :
    parsePageParam none = JsNum.int 1 ∧
      parsePageParam (some "") = JsNum.int 1 ∧
      (∀ s : String, s ≠ "" → parsePageParam (some s) = jsParseIntNum s) ∧
      (∀ params : GetPostsParams,
        ("page", (params.page.getD (JsNum.int 1)).toJsString)
            ∈ buildPostsQueryParams params ∧
          ("per_page", (params.perPage.getD (JsNum.int 9)).toJsString)
            ∈ buildPostsQueryParams params ∧
          (params.categories ≠ "" →
            ("categories", params.categories) ∈ buildPostsQueryParams params) ∧
          (params.categories = "" →
            ∀ v, ("categories", v) ∉ buildPostsQueryParams params) ∧
          (params.search ≠ "" →
            ("search", params.search) ∈ buildPostsQueryParams params) ∧
          (params.search = "" →
            ∀ v, ("search", v) ∉ buildPostsQueryParams params)) := by
  refine ⟨by decide, by decide, fun s hs => ?_, fun params => ?_⟩
  · simp [parsePageParam, jsOr, hs]
  · refine ⟨?_, ?_, fun hc => ?_, fun hc v => ?_, fun hs => ?_, fun hs v => ?_⟩
    · simp [buildPostsQueryParams]
    · simp [buildPostsQueryParams]
    · simp [buildPostsQueryParams, hc]
    · simp [buildPostsQueryParams, hc]
    · simp [buildPostsQueryParams, hs]
    · simp [buildPostsQueryParams, hs]

/-- Witness for C5: the string `"5"` parses to page 5, and a category
filter shows up in the query exactly when supplied. -/
theorem parsePageParam_amended_witness :
    parsePageParam (some "5") = jsParseIntNum "5" ∧
      ("categories", "3")
        ∈ buildPostsQueryParams ⟨some (.int 5), some (.int 9), "3", ""⟩ :=
  ⟨parsePageParam_amended.2.2.1 "5" (by decide),
    (parsePageParam_amended.2.2.2 ⟨some (.int 5), some (.int 9), "3", ""⟩).2.2.1
      (by decide)⟩

/-- C6 (counterexample): the claimed `PageResult` invariant does not
hold for every upstream response: a successful response whose
`X-WP-TotalPages` header is `"0"` produces `totalPages = 0 < 1`. -/
theorem pageResult_invariant_counterexample :
    pageResultOk 9
        (getPosts ⟨some (.int 1), some (.int 9), "", ""⟩
          (some ⟨true, some "0", some "0", some []⟩))
      = false := by decide

/-- C6 (amended): the invariant `currentPage ≥ 1 ∧ totalPages ≥ 1 ∧
items.length ≤ page size` holds on every error/fallback result, and on
a successful response provided the requested page is an integer ≥ 1,
the `X-WP-TotalPages` header (after the `|| '1'` fallback) parses to an
integer ≥ 1, and the body holds at most the page size many posts; a
response violating those provisos (e.g. header `"0"`) escapes the
invariant. -/
theorem pageResult_invariant_amended :
    (∀ k : Nat, pageResultOk k emptyPostsResult = true) ∧
      (∀ (params : GetPostsParams) (s : Nat),
        pageResultOk s (getPosts params none) = true) ∧
      (∀ (params : GetPostsParams) (resp : WPResponse) (s : Nat),
        resp.ok = false → pageResultOk s (getPosts params (some resp)) = true) ∧
      (∀ (params : GetPostsParams) (resp : WPResponse) (s : Nat),
        resp.body = none → pageResultOk s (getPosts params (some resp)) = true) ∧
      (∀ (params : GetPostsParams) (resp : WPResponse) (posts : List Post)
          (p n : Int) (s : Nat),
        params.page = some (JsNum.int p) → 1 ≤ p →
        resp.ok = true → resp.body = some posts → posts.length ≤ s →
        jsParseIntNum (jsOr resp.totalPagesHeader "1") = JsNum.int n →
        1 ≤ n →
        pageResultOk s (getPosts params (some resp)) = true) := by
  refine ⟨fun k => by simp [pageResultOk, emptyPostsResult, JsNum.geOne],
    fun params s => by simp [getPosts, pageResultOk, emptyPostsResult, JsNum.geOne],
    fun params resp s h => by simp [getPosts, h, pageResultOk, emptyPostsResult, JsNum.geOne],
    fun params resp s h => ?_,
    fun params resp posts p n s hp hp1 hok hb hlen htp hn1 => ?_⟩
  · cases hok : resp.ok <;>
      simp [getPosts, h, hok, pageResultOk, emptyPostsResult, JsNum.geOne]
  · simp [getPosts, hok, hb, hp, pageResultOk, htp, JsNum.geOne, hlen, hp1, hn1]

/-- Witness for C6 at a well-behaved concrete response. -/
theorem pageResult_invariant_amended_witness :
    pageResultOk 9
        (getPosts ⟨some (.int 1), some (.int 9), "", ""⟩
          (some ⟨true, some "5", some "45", some []⟩))
      = true :=
  pageResult_invariant_amended.2.2.2.2
    ⟨some (.int 1), some (.int 9), "", ""⟩
    ⟨true, some "5", some "45", some []⟩ [] 1 5 9
    rfl (by decide) rfl rfl (by decide) (by decide) (by decide)

/-- C7 (counterexample): the claim describes the truncated excerpt as
the first `maxLength` characters with TRAILING whitespace trimmed, but
the source calls `trim()`, which also removes LEADING whitespace: on
`" aaaaaa"` with `maxLength = 5` the source yields `"aaaa..."` while
the claimed description yields `" aaaa..."`. -/
theorem createExcerpt_claim_counterexample :
    createExcerpt " aaaaaa" 5 = "aaaa..." ∧
      createExcerptClaimed " aaaaaa" 5 = " aaaa..." ∧
      createExcerpt " aaaaaa" 5 ≠ createExcerptClaimed " aaaaaa" 5 := by
  decide

/-- C7 (amended): `createExcerpt` strips HTML and returns the stripped
text unchanged (no ellipsis) when its length is ≤ `maxLength`;
otherwise it returns the first `maxLength` characters with LEADING AND
TRAILING whitespace trimmed plus an ellipsis — the ellipsis is appended
exactly on the truncation path.  The claim's two examples hold. -/
theorem createExcerpt_spec_amended :
    (∀ (content : String) (maxLength : Nat),
        createExcerpt content maxLength
          = createExcerptAmendedSpec content maxLength) ∧
      (∀ (content : String) (maxLength : Nat),
        (stripHtml content).length ≤ maxLength →
        createExcerpt content maxLength = stripHtml content) ∧
      createExcerpt (repeatStr 40 "word ") 10 = "word word..." ∧
      createExcerpt "short text" 150 = "short text" := by
  refine ⟨fun content maxLength => ?_, fun content maxLength h => ?_,
    by set_option maxRecDepth 40000 in decide, by decide⟩
  · simp [createExcerpt, createExcerptAmendedSpec, jsTrim, jsTrimL, trimEndL]
  · simp [createExcerpt, h]

/-- Witness for C7 at a short concrete input. -/
theorem createExcerpt_spec_amended_witness :
    createExcerpt "hi there" 150 = stripHtml "hi there" :=
  createExcerpt_spec_amended.2.1 "hi there" 150 (by decide)

/-- C8: `getPostBySlug` returns the same sentinel `none` when the
request succeeds with zero matching posts, when the status is non-ok,
when the body fails to decode, and when the fetch itself throws — the
paths are indistinguishable to the caller. -/
theorem getPostBySlug_notFound_folding (slug : String) (resp : WPResponse) :
    getPostBySlug slug none = none ∧
      (resp.ok = true → resp.body = some [] →
        getPostBySlug slug (some resp) = none) ∧
      (resp.ok = false → getPostBySlug slug (some resp) = none) ∧
      (resp.body = none → getPostBySlug slug (some resp) = none) := by
  refine ⟨rfl, fun hok hb => ?_, fun hok => ?_, fun hb => ?_⟩
  · simp [getPostBySlug, hok, hb]
  · simp [getPostBySlug, hok]
  · cases hok : resp.ok <;> simp [getPostBySlug, hok, hb]

/-- Witness for C8: the zero-match path and the error path produce the
same sentinel for a concrete slug. -/
theorem getPostBySlug_notFound_folding_witness :
    getPostBySlug "hello-world"
        (some ⟨true, none, none, some []⟩) = none ∧
      getPostBySlug "hello-world"
        (some ⟨false, none, none, none⟩) = none :=
  ⟨(getPostBySlug_notFound_folding "hello-world"
      ⟨true, none, none, some []⟩).2.1 rfl rfl,
    (getPostBySlug_notFound_folding "hello-world"
      ⟨false, none, none, none⟩).2.2.1 rfl⟩

/-- C10: `getAuthorName` returns the fallback `'Unknown Author'` when
the embedded author record is absent at any step of the optional chain
AND when the first embedded author's name is present but equal to the
empty string (a falsy name folds into the fallback); a present
non-empty name is returned as is. -/
theorem getAuthorName_fallback (post : Post) :
    (post.embedded = none → getAuthorName post = "Unknown Author") ∧
      (∀ e, post.embedded = some e → e.author = none →
        getAuthorName post = "Unknown Author") ∧
      (∀ e, post.embedded = some e → e.author = some [] →
        getAuthorName post = "Unknown Author") ∧
      (∀ e a rest, post.embedded = some e → e.author = some (a :: rest) →
        a.name = some "" → getAuthorName post = "Unknown Author") ∧
      (∀ e a rest n, post.embedded = some e → e.author = some (a :: rest) →
        a.name = some n → n ≠ "" → getAuthorName post = n) := by
  refine ⟨fun h => by simp [getAuthorName, h],
    fun e he ha => by simp [getAuthorName, he, ha],
    fun e he ha => by simp [getAuthorName, he, ha],
    fun e a rest he ha hn => by simp [getAuthorName, he, ha, hn],
    fun e a rest n he ha hn hne => by simp [getAuthorName, he, ha, hn, hne]⟩

/-- Witness for C10: a concrete post with an empty author name falls
back, and one with the name `"Ada"` yields `"Ada"`. -/
theorem getAuthorName_fallback_witness :
    getAuthorName ⟨some ⟨some [⟨some ""⟩]⟩⟩ = "Unknown Author" ∧
      getAuthorName ⟨some ⟨some [⟨some "Ada"⟩]⟩⟩ = "Ada" :=
  ⟨(getAuthorName_fallback ⟨some ⟨some [⟨some ""⟩]⟩⟩).2.2.2.1
      ⟨some [⟨some ""⟩]⟩ ⟨some ""⟩ [] rfl rfl rfl,
    (getAuthorName_fallback ⟨some ⟨some [⟨some "Ada"⟩]⟩⟩).2.2.2.2
      ⟨some [⟨some "Ada"⟩]⟩ ⟨some "Ada"⟩ [] "Ada" rfl rfl rfl
      (by decide)⟩

end WP
